import Mathlib

/-!
Verification of the VM Lifecycle Orchestrator in
`src/azure/azure_vm_manager.py` against its natural-language specification.

The Python source is shallowly embedded: pure helpers become Lean functions,
each stateful operation of `AzureVMManager` becomes a function of the
manager's fields, an explicit environment record describing the provider's
responses, and the optional persisted `VMState`, returning the operation's
outcome together with the list of externally observable side effects
(provider mutations and state-store writes) as an event trace.
-/

deriving instance DecidableEq for Except

namespace AzureVmManager

/-- Configuration parameters of the `VMConfig` dataclass (lines 87-134) that
the orchestrator operations read.  Configuration *loading* (file/env/CLI
fallbacks) is plain I/O plumbing and is out of scope; a `VMConfig` value here
is the already-resolved record. -/
structure VMConfig where
  project_name : String
  location : String
  vm_size : String
  admin_username : String
  admin_password : String
  spot : Bool
  install_wsl : Bool
deriving DecidableEq, Repr

/-- Persisted state record, the `VMState` dataclass (lines 137-148).
`vm_resource_id` is `Optional[str]` in the source; `vm_exists` is the
lifecycle discriminant. -/
structure VMState where
  vm_name : String
  resource_group : String
  disk_name : String
  disk_resource_id : String
  network_interface_id : String
  public_ip_id : String
  created_at : String
  vm_resource_id : Option String
  vm_exists : Bool
deriving DecidableEq, Repr

/-- The fields of `AzureVMManager` (lines 154-181) that the modelled
operations use: the subscription id, the resolved configuration, and the
state loaded from the state file (`self.state`). -/
structure Manager where
  subscription_id : String
  config : VMConfig
  state : Option VMState
deriving DecidableEq, Repr

/-! ## Resource naming (`_get_resource_names`, lines 230-242) -/

/-- Python's `str.replace(old, new)` for a single-character pattern and
single-character replacement, as used in `project_name.replace('_', '-')`
(line 232): every occurrence of the character is replaced. -/
def pyReplaceChar (s : String) (a b : Char) : String :=
  ⟨s.data.map (fun c => if c = a then b else c)⟩

/-- Result record of `_get_resource_names` (lines 233-242). -/
structure ResourceNames where
  resource_group : String
  vm_name : String
  disk_name : String
  nic_name : String
  pip_name : String
  nsg_name : String
  vnet_name : String
  subnet_name : String
deriving DecidableEq, Repr

/-- `_get_resource_names` (lines 230-242): normalise the project name by
replacing underscores with hyphens, then append a fixed suffix per resource
kind; the subnet name is the constant `"default"`. -/
def resourceNames (projectName : String) : ResourceNames :=
  let base := pyReplaceChar projectName '_' '-'
  { resource_group := base ++ "-rg"
    vm_name := base ++ "-vm"
    disk_name := base ++ "-disk"
    nic_name := base ++ "-nic"
    pip_name := base ++ "-pip"
    nsg_name := base ++ "-nsg"
    vnet_name := base ++ "-vnet"
    subnet_name := "default" }

/-- The resource-group name the orchestrator re-derives from the
configuration on each call. -/
def rgNameOf (cfg : VMConfig) : String := (resourceNames cfg.project_name).resource_group

/-- The instance name derived from the configuration. -/
def vmNameOf (cfg : VMConfig) : String := (resourceNames cfg.project_name).vm_name

/-- The eight names produced by `_get_resource_names`, in source order. -/
def namesList (p : String) : List String :=
  let n := resourceNames p
  [n.resource_group, n.vm_name, n.disk_name, n.nic_name, n.pip_name,
   n.nsg_name, n.vnet_name, n.subnet_name]

/-- The seven fixed per-kind suffixes appended to the normalised project
name (lines 234-240). -/
def nameSuffixes : List String :=
  ["-rg", "-vm", "-disk", "-nic", "-pip", "-nsg", "-vnet"]

/-! ### String helper lemmas for the naming proofs -/

theorem string_data_append (s t : String) : (s ++ t).data = s.data ++ t.data := by
  cases s; cases t; rfl

theorem string_eq_of_data_eq {s t : String} (h : s.data = t.data) : s = t := by
  cases s; cases t; exact congrArg String.mk h

theorem append_left_injective (b : String) :
    Function.Injective (fun s : String => b ++ s) := by
  intro s t h
  apply string_eq_of_data_eq
  have h2 : (b ++ s).data = (b ++ t).data := congrArg String.data h
  rw [string_data_append, string_data_append] at h2
  exact List.append_cancel_left h2

theorem suffixed_ne_of_hyphen {b s : String} (h : '-' ∈ s.data) :
    b ++ s ≠ "default" := by
  intro he
  have hm : '-' ∈ (b ++ s).data := by
    rw [string_data_append]; exact List.mem_append_right _ h
  rw [he] at hm
  revert hm
  decide

theorem suffixed_ne_empty {b s : String} (h : s.data ≠ []) : b ++ s ≠ "" := by
  intro he
  have h2 : (b ++ s).data = ("" : String).data := congrArg String.data he
  rw [string_data_append] at h2
  exact h (List.append_eq_nil.mp h2).2

theorem namesList_eq_map (p : String) :
    namesList p =
      nameSuffixes.map (fun suf => pyReplaceChar p '_' '-' ++ suf) ++ ["default"] := rfl

/-- Claim C9: for every project identifier, `_get_resource_names` is
deterministic (identical identifier, identical names), normalises
underscores to hyphens and appends a fixed suffix per resource kind, and
produces eight pairwise-distinct non-empty names. -/
theorem names_deterministic_eight_distinct_nonempty (p : String) :
    (∀ q, p = q → namesList p = namesList q) ∧
    namesList p = nameSuffixes.map (fun suf => pyReplaceChar p '_' '-' ++ suf) ++ ["default"] ∧
    (namesList p).length = 8 ∧
    (namesList p).Nodup ∧
    (∀ n, n ∈ namesList p → n ≠ "") := by
  refine ⟨fun q h => by rw [h], namesList_eq_map p, rfl, ?_, ?_⟩
  · rw [namesList_eq_map]
    apply List.Nodup.append
    · exact List.Nodup.map (append_left_injective _) (by decide)
    · exact List.nodup_singleton _
    · intro x hx hx'
      rcases List.mem_map.mp hx with ⟨s, hs, hmap⟩
      have hx'' : pyReplaceChar p '_' '-' ++ s = "default" := by
        rw [hmap]; simpa using hx'
      have hhy : '-' ∈ s.data := by fin_cases hs <;> decide
      exact suffixed_ne_of_hyphen hhy hx''
  · intro n hn
    rw [namesList_eq_map] at hn
    rcases List.mem_append.mp hn with hn | hn
    · rcases List.mem_map.mp hn with ⟨s, hs, rfl⟩
      have hne : s.data ≠ [] := by fin_cases hs <;> decide
      exact suffixed_ne_empty hne
    · have : n = "default" := by simpa using hn
      subst this
      decide

/-- Witness for C9 at the concrete identifier `win_api_rmt`, discharging the
determinism hypothesis. -/
theorem names_deterministic_eight_distinct_nonempty_witness :
    namesList "win_api_rmt" = namesList "win_api_rmt" ∧
    (namesList "win_api_rmt").Nodup :=
  ⟨(names_deterministic_eight_distinct_nonempty "win_api_rmt").1 "win_api_rmt" rfl,
   (names_deterministic_eight_distinct_nonempty "win_api_rmt").2.2.2.1⟩

/-- Concrete configuration used by witnesses and counterexamples: project
identifier `demo`, region `eastus`, matching the scenario of spec section 8
and the source defaults for the remaining fields. -/
def cfgDemo : VMConfig :=
  { project_name := "demo"
    location := "eastus"
    vm_size := "Standard_D8s_v3"
    admin_username := "azureuser"
    admin_password := "TestPass123!"
    spot := true
    install_wsl := false }

/-! ## State store (`_load_state` lines 210-219, `_save_state` lines 221-228)

The state file's content is modelled by `RawRecord`: either the bytes are not
valid JSON (`json.load` raises `json.JSONDecodeError`), or they are JSON that
does not match the `VMState` schema (`VMState(**data)` raises `TypeError`),
or they decode to a well-formed record. -/

/-- Content of an existing state file, as `_load_state` can observe it. -/
inductive RawRecord where
  | notJson
  | wrongShape
  | wellFormed (s : VMState)
deriving DecidableEq, Repr

/-- The two parse-failure exception classes caught at line 217. -/
inductive ParseExc where
  | jsonDecodeError
  | typeError
deriving DecidableEq, Repr

/-- Parsing the state file body: `json.load` followed by `VMState(**data)`
(lines 214-216). -/
def parseRecord : RawRecord → Except ParseExc VMState
  | .notJson => .error .jsonDecodeError
  | .wrongShape => .error .typeError
  | .wellFormed s => .ok s

/-- The `AttributeError` raised when `_load_state`'s except handler reads
`self.logger` before `_setup_logging` has created the attribute (quotation
marks elided from the Python message). -/
def loggerMissingMsg : String :=
  "AttributeError: AzureVMManager object has no attribute logger"

/-- `_load_state` (lines 210-219): a missing file yields no state; an
existing file is parsed, and a `json.JSONDecodeError` or `TypeError` makes
the handler at line 218 run `self.logger.warning(...)`.  That attribute read
raises `AttributeError` when the `logger` attribute does not exist yet
(`loggerSet = false`); the `AttributeError` is not caught by the
`(json.JSONDecodeError, TypeError)` clause, so it propagates out of
`_load_state`.  Only with the attribute present does the handler log and
fall through to return `None`; the Boolean in the result records that the
warning was logged. -/
def loadState (loggerSet : Bool) (file : Option RawRecord) :
    Except String (Option VMState × Bool) :=
  match file with
  | none => .ok (none, false)
  | some r =>
    match parseRecord r with
    | .ok s => .ok (some s, false)
    | .error _ =>
      if loggerSet then .ok (none, true) else .error loggerMissingMsg

/-- `AzureVMManager.__init__` (lines 154-181): construction sets
`self.state = self._load_state()` at line 178, and `self.logger` is only
created inside `_setup_logging` (line 208), which runs at line 181 — after
the load.  So at the single call site of `_load_state` the `logger`
attribute is absent, and an exception escaping `_load_state` aborts
construction. -/
def mkManager (subscriptionId : String) (cfg : VMConfig) (file : Option RawRecord) :
    Except String Manager :=
  match loadState false file with
  | .error e => .error e
  | .ok lw => .ok { subscription_id := subscriptionId, config := cfg, state := lw.1 }

/-- Claim C2 (code bug in the source): the claim says a backing record that
exists but cannot be parsed is treated as absent with a logged warning and
manager construction still succeeds.  In the code, `_load_state`'s except
handler calls `self.logger.warning` (line 218) before `_setup_logging`
(called at line 181, attribute created at line 208) has run, so for every
unparseable record the handler raises `AttributeError` and `__init__`
aborts: the process crashes instead of degrading to the absent state. -/
theorem corrupt_state_crashes_constructor (subId : String) (cfg : VMConfig)
    (r : RawRecord) (h : ∀ s, parseRecord r ≠ .ok s) :
    loadState false (some r) = .error loggerMissingMsg ∧
    mkManager subId cfg (some r) = .error loggerMissingMsg := by
  cases r with
  | notJson => exact ⟨rfl, rfl⟩
  | wrongShape => exact ⟨rfl, rfl⟩
  | wellFormed s => exact absurd rfl (h s)

/-- Witness for C2 at the concrete failing input: a state file holding bytes
that are not JSON makes construction abort with the `AttributeError`. -/
theorem corrupt_state_crashes_constructor_witness :
    loadState false (some .notJson) = .error loggerMissingMsg ∧
    mkManager "sub-0" cfgDemo (some .notJson) = .error loggerMissingMsg :=
  corrupt_state_crashes_constructor "sub-0" cfgDemo .notJson
    (fun s hs => by simp [parseRecord] at hs)

/-! ## Observable effects

Each lifecycle operation returns its outcome together with the list of
externally observable effects it performed, in order: provider mutations
(submitting/awaiting long-running operations) and state-store writes.
Read-only provider calls (`get`) are answered by the environment records and
do not appear in the trace, except for the resource enumeration of
`destroy-all`, which the claims mention explicitly. -/

/-- Externally observable side effects of the orchestrator. -/
inductive Event where
  | ensureResourceGroup (rg : String)
  | createNetworkInfra (rg : String)
  | submitVmCreate (rg vm : String)
  | awaitVmCreateOk (rg vm : String)
  | submitVmDelete (rg vm : String)
  | awaitVmDeleteOk (rg vm : String)
  | listResources (rg : String)
  | submitRgDelete (rg : String)
  | awaitRgDeleteOk (rg : String)
  | deleteStateFile
  | persistState (s : VMState)
  | installSshExtension (rg vm : String)
  | drawStorageSuffix (suffix : String)
  | getStorageAccount (nm : String)
  | submitStorageCreate (nm : String)
deriving DecidableEq, Repr

/-- Replay the state-store writes of a trace over an initial persisted
state: `_save_state` overwrites the record, `os.remove(self.state_file)`
(line 1277-1278) deletes it. -/
def persistedAfter (init : Option VMState) (tr : List Event) : Option VMState :=
  tr.foldl (fun acc e =>
    match e with
    | .persistState s => some s
    | .deleteStateFile => none
    | _ => acc) init

/-- True exactly on state-store writes. -/
def isPersist : Event → Bool
  | .persistState _ => true
  | _ => false

/-- True exactly on a successfully awaited instance-creation handle. -/
def isAwaitCreateOk : Event → Bool
  | .awaitVmCreateOk _ _ => true
  | _ => false

/-- True exactly on a successfully awaited instance-deletion handle. -/
def isAwaitDeleteOk : Event → Bool
  | .awaitVmDeleteOk _ _ => true
  | _ => false

/-- True on a state-store write whose `vm_exists` discriminant is `b`. -/
def setsDiscriminant (b : Bool) : Event → Bool
  | .persistState s => s.vm_exists == b
  | _ => false

/-- No state-store write setting the discriminant happens strictly before
the first successful await of the corresponding provider operation. -/
def noFlipBeforeAwait (flip isAwait : Event → Bool) (tr : List Event) : Prop :=
  (tr.takeWhile (fun e => !(isAwait e))).all (fun e => !(flip e)) = true

/-- Boolean success test on an `Except` outcome. -/
def exceptIsOk : Except String VMState → Bool
  | .ok _ => true
  | .error _ => false

/-! ## Polling for the public address (`wait_for_public_ip`, lines 1053-1105) -/

/-- What one `public_ip_addresses.get` observation can yield during polling:
an exception (caught at line 1097-1099, polling continues), or the
`ip_address` attribute, which may be missing. -/
abbrev IpProbe := Except String (Option String)

/-- The body of the `while time.time() - start_time < timeout` loop of
`wait_for_public_ip`, with the time bound modelled as a bounded number of
polling attempts (`timeout / check_interval`).  An attempt whose address is
present and differs from `"Not Assigned"` (line 1081) returns it; any other
attempt, including one that raised, sleeps and polls again; exhausting the
attempts returns `none` (lines 1101-1105) — the loop never propagates an
exception. -/
def pollPublicIpLoop (ipAt : Nat → IpProbe) : Nat → Nat → Option String
  | 0, _ => none
  | fuel + 1, attempt =>
    match ipAt attempt with
    | .ok (some ip) =>
      if ip = "Not Assigned" then pollPublicIpLoop ipAt fuel (attempt + 1) else some ip
    | .ok none => pollPublicIpLoop ipAt fuel (attempt + 1)
    | .error _ => pollPublicIpLoop ipAt fuel (attempt + 1)

/-- `wait_for_public_ip` (lines 1053-1105): with no state it returns `none`
immediately (lines 1064-1066); otherwise it runs the bounded polling loop. -/
def waitForPublicIp (st : Option VMState) (ipAt : Nat → IpProbe) (fuel : Nat) :
    Option String :=
  match st with
  | none => none
  | some _ => pollPublicIpLoop ipAt fuel 0

/-- The number of attempts `create_vm` and `recreate_vm_with_disk` allow:
`timeout=180` seconds at `check_interval=5` seconds (lines 829 and 987). -/
def createPollAttempts : Nat := 36

/-- An observation that never yields a usable address: every successful probe
is either missing or the literal `"Not Assigned"`. -/
def noUsableIp (r : IpProbe) : Prop := ∀ ip, r = .ok (some ip) → ip = "Not Assigned"

/-! ## create_vm (lines 716-887) -/

/-- Outcome of the `disks.get` call in the disk pre-check of `create_vm`
(line 742): the disk exists, or the call raised with `ResourceNotFound` in
its message, or it raised with some other message. -/
inductive DiskGetOutcome where
  | found (diskId : String)
  | errNotFound
  | errOther (msg : String)
deriving DecidableEq, Repr

/-- Provider responses consumed by one run of `create_vm`. -/
structure CreateEnv where
  /-- `resource_groups.list()` succeeds in `validate_configuration` (line 268). -/
  connectivity_ok : Bool
  /-- `create_resource_group` (lines 557-574) completes without raising. -/
  rg_ok : Bool
  /-- Outcome of the `disks.get` probe of the disk pre-check (line 742). -/
  disk_get : DiskGetOutcome
  /-- `create_network_infrastructure` (lines 576-667) completes without raising. -/
  network_ok : Bool
  /-- `nic_result.id` returned by the network build (line 667). -/
  nic_id : String
  /-- `pip_result.id` returned by the network build (line 667). -/
  pip_id : String
  /-- Per-attempt observation of the public address while polling. -/
  ipAt : Nat → IpProbe
  /-- `vm_operation.result()` (line 837): the created instance's id, or the
  awaited operation's failure. -/
  await_vm : Except String String
  /-- `datetime.now().isoformat()`. -/
  now : String

/-- The disk pre-check of `create_vm` (lines 738-752), kept with the source's
exception structure.  The `try` body either raises the recreate-guidance
`ValueError` (disk found, line 748) or propagates the `disks.get` failure;
the enclosing `except Exception as e` (line 749) catches **every** such
exception — including the guidance `ValueError` the block itself raised —
logs at debug level when `"ResourceNotFound"` is absent from the message, and
falls through.  The block therefore never aborts `create_vm`. -/
def createCheckExistingDisk (diskName : String) (o : DiskGetOutcome) :
    Except String Unit :=
  let tryBody : Except String Unit :=
    match o with
    | .found _ =>
      .error ("Disk " ++ diskName ++ " already exists. Use recreate command to reuse existing disk.")
    | .errNotFound => .error "ResourceNotFound"
    | .errOther msg => .error msg
  match tryBody with
  | .ok u => .ok u
  | .error _ => .ok ()

/-- `validate_configuration` (lines 254-284): Azure connectivity, then
non-empty admin credentials, then non-empty project name.  The two
missing-file checks only log warnings. -/
def validateConfiguration (cfg : VMConfig) (connectivityOk : Bool) : Bool :=
  if connectivityOk = false then false
  else if cfg.admin_username = "" ∨ cfg.admin_password = "" then false
  else if cfg.project_name.length = 0 then false
  else true

/-- `_validate_resource_group_consistency` (lines 704-714): compare the
working resource-group name against the one re-derived from the
configuration. -/
def validateResourceGroupConsistency (cfg : VMConfig) (rgName : String) : Bool :=
  rgName == rgNameOf cfg

/-- The disk resource id `create_vm` derives at line 846. -/
def diskResourceId (subId rg disk : String) : String :=
  "/subscriptions/" ++ subId ++ "/resourceGroups/" ++ rg ++
    "/providers/Microsoft.Compute/disks/" ++ disk

/-- The `VMState` record `create_vm` builds and saves on success
(lines 849-859). -/
def createFinalState (m : Manager) (env : CreateEnv) (vmId : String) : VMState :=
  let names := resourceNames m.config.project_name
  { vm_name := names.vm_name
    resource_group := names.resource_group
    disk_name := names.disk_name
    disk_resource_id := diskResourceId m.subscription_id names.resource_group names.disk_name
    network_interface_id := env.nic_id
    public_ip_id := env.pip_id
    created_at := env.now
    vm_resource_id := some vmId
    vm_exists := true }

/-- The trace of a fully successful `create_vm` run. -/
def createSuccessTrace (m : Manager) (env : CreateEnv) (vmId : String) : List Event :=
  let names := resourceNames m.config.project_name
  [.ensureResourceGroup names.resource_group,
   .createNetworkInfra names.resource_group,
   .submitVmCreate names.resource_group names.vm_name,
   .awaitVmCreateOk names.resource_group names.vm_name,
   .installSshExtension names.resource_group names.vm_name,
   .persistState (createFinalState m env vmId)]

/-- The guidance error `create_vm` raises when the persisted record says the
instance exists (line 727). -/
def vmAlreadyExistsMsg (vmName : String) : String :=
  "VM " ++ vmName ++ " already exists. Use python azure_vm_manager.py recreate instead."

/-- Body of `create_vm` after the persisted-state check (lines 729-887):
validate configuration, ensure the resource group, run the (non-aborting)
disk pre-check, check resource-group consistency, build the network stack,
submit instance creation, poll for the public address while the instance
provisions (the result only affects logging), await the creation handle,
run the SSH bootstrap — `_install_ssh_server` catches every exception it can
raise (lines 550-555) and never writes the state store, so it is one
non-failing step here — and finally persist the new state. -/
def createVmBody (m : Manager) (env : CreateEnv) : Except String VMState × List Event :=
  let names := resourceNames m.config.project_name
  if validateConfiguration m.config env.connectivity_ok = false then
    (.error "Configuration validation failed - aborting VM creation", [])
  else if env.rg_ok = false then
    (.error "resource group operation failed", [.ensureResourceGroup names.resource_group])
  else
    match createCheckExistingDisk names.disk_name env.disk_get with
    | .error e => (.error e, [.ensureResourceGroup names.resource_group])
    | .ok _ =>
      if validateResourceGroupConsistency m.config names.resource_group = false then
        (.error "Resource group validation failed", [.ensureResourceGroup names.resource_group])
      else if env.network_ok = false then
        (.error "network infrastructure creation failed",
         [.ensureResourceGroup names.resource_group, .createNetworkInfra names.resource_group])
      else
        let temp : VMState :=
          { vm_name := names.vm_name
            resource_group := names.resource_group
            disk_name := names.disk_name
            disk_resource_id := ""
            network_interface_id := env.nic_id
            public_ip_id := env.pip_id
            created_at := env.now
            vm_resource_id := some ""
            vm_exists := false }
        let _earlyIp := waitForPublicIp (some temp) env.ipAt createPollAttempts
        match env.await_vm with
        | .error e =>
          (.error e,
           [.ensureResourceGroup names.resource_group, .createNetworkInfra names.resource_group,
            .submitVmCreate names.resource_group names.vm_name])
        | .ok vmId =>
          (.ok (createFinalState m env vmId), createSuccessTrace m env vmId)

/-- `create_vm` (lines 716-887): reject when the persisted record exists
with `vm_exists` set (lines 725-727), otherwise run the body. -/
def createVm (m : Manager) (env : CreateEnv) : Except String VMState × List Event :=
  match m.state with
  | some s =>
    if s.vm_exists then (.error (vmAlreadyExistsMsg s.vm_name), [])
    else createVmBody m env
  | none => createVmBody m env

/-! ## destroy_vm_keep_disk (lines 889-917) -/

/-- Provider responses consumed by `destroy_vm_keep_disk`. -/
structure DestroyEnv where
  /-- `vm_operation.result()` of the deletion handle (line 904) completes
  without raising. -/
  await_delete_ok : Bool
deriving DecidableEq, Repr

/-- `destroy_vm_keep_disk` (lines 889-917): nothing to destroy without a
record whose `vm_exists` is set (returns `False`); otherwise submit the
deletion, await it, and only then clear `vm_exists`/`vm_resource_id` and
save; a failure of the awaited handle is caught (lines 915-917) and reported
as `False` with the persisted state untouched. -/
def destroyVmKeepDisk (m : Manager) (env : DestroyEnv) : Bool × List Event :=
  match m.state with
  | none => (false, [])
  | some s =>
    if s.vm_exists = false then (false, [])
    else if env.await_delete_ok then
      let s2 : VMState := { s with vm_exists := false, vm_resource_id := none }
      (true,
       [.submitVmDelete s.resource_group s.vm_name,
        .awaitVmDeleteOk s.resource_group s.vm_name,
        .persistState s2])
    else
      (false, [.submitVmDelete s.resource_group s.vm_name])

/-! ## recreate_vm_with_disk (lines 919-1004) -/

/-- Provider responses consumed by `recreate_vm_with_disk`. -/
structure RecreateEnv where
  /-- `disks.get(state.resource_group, state.disk_name)` succeeds (line 935). -/
  disk_found : Bool
  /-- `network_interfaces.get` succeeds (line 942). -/
  nic_found : Bool
  /-- When the interface is missing, `create_network_infrastructure`
  completes without raising (line 948). -/
  network_ok : Bool
  /-- Per-attempt observation of the public address while polling. -/
  ipAt : Nat → IpProbe
  /-- `vm_operation.result()` (line 995). -/
  await_vm : Except String String

/-- `recreate_vm_with_disk` (lines 919-1004): no record aborts with the
no-prior-state error; a record with `vm_exists` set warns and returns it
unchanged; a missing disk aborts; a missing network interface is rebuilt in
`state.resource_group`; the instance creation is submitted in
`state.resource_group` under `state.vm_name`, the public address is polled
while it provisions, the handle is awaited, and only then is the record's
discriminant set and saved.  The resource-group consistency check is never
invoked here. -/
def recreateVmWithDisk (m : Manager) (env : RecreateEnv) :
    Except String VMState × List Event :=
  match m.state with
  | none => (.error "No state found. Cannot recreate VM without existing disk state.", [])
  | some s =>
    if s.vm_exists then (.ok s, [])
    else if env.disk_found = false then
      (.error ("Disk " ++ s.disk_name ++ " not found"), [])
    else
      let netTrace : List Event :=
        if env.nic_found then [] else [.createNetworkInfra s.resource_group]
      if env.nic_found = false ∧ env.network_ok = false then
        (.error "network infrastructure creation failed", netTrace)
      else
        let submitTrace := netTrace ++ [Event.submitVmCreate s.resource_group s.vm_name]
        let _earlyIp := waitForPublicIp m.state env.ipAt createPollAttempts
        match env.await_vm with
        | .error e => (.error e, submitTrace)
        | .ok vmId =>
          let s2 : VMState := { s with vm_resource_id := some vmId, vm_exists := true }
          (.ok s2,
           submitTrace ++
             [.awaitVmCreateOk s.resource_group s.vm_name, .persistState s2])

/-! ## destroy_all_resources (lines 1252-1289) -/

/-- Provider responses consumed by `destroy_all_resources`. -/
structure DestroyAllEnv where
  /-- `rg_operation.result()` of the group deletion (line 1274) completes
  without raising. -/
  rg_delete_ok : Bool
deriving DecidableEq, Repr

/-- `destroy_all_resources` (lines 1252-1289): with no record it warns and
returns `True` without touching the provider; otherwise it enumerates the
group's resources for logging, deletes the whole resource group as one
operation, awaits it, and removes the state file; a failure of the awaited
deletion is caught (lines 1287-1289) and reported as `False` with the state
kept. -/
def destroyAllResources (m : Manager) (env : DestroyAllEnv) : Bool × List Event :=
  match m.state with
  | none => (true, [])
  | some s =>
    if env.rg_delete_ok then
      (true,
       [.listResources s.resource_group, .submitRgDelete s.resource_group,
        .awaitRgDeleteOk s.resource_group, .deleteStateFile])
    else
      (false, [.listResources s.resource_group, .submitRgDelete s.resource_group])

/-! ## _create_storage_account (lines 1116-1173) -/

/-- Python's `str.replace(pat, "")` for a non-empty multi-character pattern:
scan left to right, and on a match drop the matched characters and continue
scanning after them (non-overlapping).  The fuel is the remaining scan
budget; it starts at the list's length and each step consumes at least one
character, so it never runs out before the list does. -/
def stripOccurrencesAux (pat : List Char) : Nat → List Char → List Char
  | 0, s => s
  | fuel + 1, s =>
    match s with
    | [] => []
    | c :: rest =>
      if !(pat.isEmpty) && pat.isPrefixOf (c :: rest) then
        stripOccurrencesAux pat fuel ((c :: rest).drop pat.length)
      else
        c :: stripOccurrencesAux pat fuel rest

/-- `clean_name.replace(word, "")` (line 1127). -/
def stripOccurrences (pat s : List Char) : List Char :=
  stripOccurrencesAux pat s.length s

/-- Python's `str.lower()`, restricted to ASCII as the source's project
names are. -/
def pyLower (s : String) : String := ⟨s.data.map Char.toLower⟩

/-- Python's slice `s[:n]`. -/
def pyTake (s : String) (n : Nat) : String := ⟨s.data.take n⟩

/-- The reserved words removed from the project name (line 1125). -/
def reservedWords : List String :=
  ["windows", "microsoft", "azure", "demo", "test", "admin", "root", "api"]

/-- Character class kept by `re.sub(r"[^a-z0-9]", "", clean_name)`
(line 1130). -/
def isLowerAlnum (c : Char) : Bool :=
  ('a' ≤ c && c ≤ 'z') || ('0' ≤ c && c ≤ '9')

/-- The name-cleaning steps of `_create_storage_account` (lines 1122-1134):
lowercase, strip each reserved word in order, keep lowercase alphanumerics,
and fall back to `"vmscripts"` when fewer than three characters remain. -/
def cleanProjectName (p : String) : String :=
  let lowered := pyLower p
  let stripped := reservedWords.foldl
    (fun acc w => (⟨stripOccurrences w.data acc.data⟩ : String)) lowered
  let alnum : String := ⟨stripped.data.filter isLowerAlnum⟩
  if alnum.data.length < 3 then "vmscripts" else alnum

/-- The storage-account name derivation (lines 1136-1140): ten cleaned
characters, the literal `"scripts"`, then the randomly drawn suffix, all
truncated to 24 characters.  The suffix is the single draw of line 1139. -/
def storageAccountName (p suffix : String) : String :=
  let base := pyTake (cleanProjectName p) 10 ++ "scripts"
  pyTake (base ++ suffix) 24

/-- Outcome of `storage_accounts.get_properties` (line 1144). -/
inductive StorageGetOutcome where
  | alreadyExists
  | errNotFound
  | errOther (msg : String)
deriving DecidableEq, Repr

/-- Provider responses consumed by `_create_storage_account`. -/
structure StorageEnv where
  /-- Outcome of the `get_properties` probe (line 1144). -/
  get_properties : StorageGetOutcome
  /-- `operation.result()` of `begin_create` (line 1166). -/
  create_result : Except String Unit
deriving DecidableEq, Repr

/-- `_create_storage_account` (lines 1116-1173): derive the name with one
random suffix draw; reuse the account if `get_properties` finds it; a
`get_properties` failure without `ResourceNotFound` in the message is
re-raised; otherwise submit `begin_create` and await it, re-raising its
failure (lines 1171-1173).  There is no retry loop: the suffix is drawn
exactly once per call. -/
def createStorageAccount (p suffix : String) (env : StorageEnv) :
    Except String String × List Event :=
  let nm := storageAccountName p suffix
  let tr0 : List Event := [.drawStorageSuffix suffix, .getStorageAccount nm]
  match env.get_properties with
  | .alreadyExists => (.ok nm, tr0)
  | .errOther msg => (.error msg, tr0)
  | .errNotFound =>
    match env.create_result with
    | .ok _ => (.ok nm, tr0 ++ [.submitStorageCreate nm])
    | .error e => (.error e, tr0 ++ [.submitStorageCreate nm])

/-- True exactly on a random-suffix draw. -/
def isDrawSuffix : Event → Bool
  | .drawStorageSuffix _ => true
  | _ => false

/-- Number of random-suffix draws in a trace. -/
def countDrawSuffix (tr : List Event) : Nat := (tr.filter isDrawSuffix).length

/-! ## Case analyses of the operations -/

/-- The disk pre-check of `create_vm` swallows every exception, its own
guidance `ValueError` included, and therefore never aborts. -/
theorem createCheckExistingDisk_never_aborts (d : String) (o : DiskGetOutcome) :
    createCheckExistingDisk d o = .ok () := by
  cases o <;> rfl

/-- The consistency check always passes on the name the orchestrator itself
derived from the configuration — which is the only name `create_vm` ever
passes to it (line 755 receives the result of `create_resource_group`,
line 560 of which derives it from the configuration). -/
theorem validateResourceGroupConsistency_self (cfg : VMConfig) :
    validateResourceGroupConsistency cfg (rgNameOf cfg) = true := by
  simp [validateResourceGroupConsistency]

/-- Exhaustive description of one `create_vm` run past the persisted-state
check: the five possible outcomes with their traces. -/
theorem createVmBody_cases (m : Manager) (env : CreateEnv) :
    (validateConfiguration m.config env.connectivity_ok = false ∧
      createVmBody m env =
        (.error "Configuration validation failed - aborting VM creation", [])) ∨
    (env.rg_ok = false ∧
      createVmBody m env = (.error "resource group operation failed",
        [.ensureResourceGroup (rgNameOf m.config)])) ∨
    (env.network_ok = false ∧
      createVmBody m env = (.error "network infrastructure creation failed",
        [.ensureResourceGroup (rgNameOf m.config), .createNetworkInfra (rgNameOf m.config)])) ∨
    (∃ e, env.await_vm = .error e ∧
      createVmBody m env = (.error e,
        [.ensureResourceGroup (rgNameOf m.config), .createNetworkInfra (rgNameOf m.config),
         .submitVmCreate (rgNameOf m.config) (vmNameOf m.config)])) ∨
    (∃ vmId, env.await_vm = .ok vmId ∧
      createVmBody m env = (.ok (createFinalState m env vmId), createSuccessTrace m env vmId)) := by
  unfold createVmBody
  by_cases hv : validateConfiguration m.config env.connectivity_ok = false
  · exact Or.inl ⟨hv, by simp [hv]⟩
  · right
    simp only [Bool.not_eq_false] at hv
    by_cases hrg : env.rg_ok = false
    · exact Or.inl ⟨hrg, by simp [hv, hrg, rgNameOf]⟩
    · right
      simp only [Bool.not_eq_false] at hrg
      by_cases hnet : env.network_ok = false
      · exact Or.inl ⟨hnet, by
          simp [hv, hrg, hnet, rgNameOf, createCheckExistingDisk_never_aborts,
            validateResourceGroupConsistency, rgNameOf]⟩
      · right
        simp only [Bool.not_eq_false] at hnet
        cases hw : env.await_vm with
        | error e =>
          exact Or.inl ⟨e, rfl, by
            simp [hv, hrg, hnet, hw, rgNameOf, vmNameOf, createCheckExistingDisk_never_aborts,
              validateResourceGroupConsistency]⟩
        | ok vmId =>
          exact Or.inr ⟨vmId, rfl, by
            simp [hv, hrg, hnet, hw, rgNameOf, vmNameOf, createCheckExistingDisk_never_aborts,
              validateResourceGroupConsistency]⟩

/-- `create_vm` either rejects on the persisted-state check or runs the body. -/
theorem createVm_split (m : Manager) (env : CreateEnv) :
    (∃ s, m.state = some s ∧ s.vm_exists = true ∧
      createVm m env = (.error (vmAlreadyExistsMsg s.vm_name), [])) ∨
    createVm m env = createVmBody m env := by
  unfold createVm
  cases hs : m.state with
  | none => exact Or.inr rfl
  | some s =>
    cases hvm : s.vm_exists with
    | false => exact Or.inr (by simp [hvm])
    | true => exact Or.inl ⟨s, rfl, hvm, by simp [hvm]⟩

/-- In every `create_vm` trace, no state-store write flips the discriminant
before the corresponding await is confirmed. -/
theorem createVm_trace_flips (m : Manager) (env : CreateEnv) :
    noFlipBeforeAwait (setsDiscriminant true) isAwaitCreateOk (createVm m env).2 ∧
    noFlipBeforeAwait (setsDiscriminant false) isAwaitDeleteOk (createVm m env).2 := by
  rcases createVm_split m env with ⟨s, _, _, heq⟩ | heq
  · rw [heq]; exact ⟨rfl, rfl⟩
  · rw [heq]
    rcases createVmBody_cases m env with ⟨_, hbody⟩ | ⟨_, hbody⟩ | ⟨_, hbody⟩ |
      ⟨e, _, hbody⟩ | ⟨vmId, _, hbody⟩ <;> rw [hbody] <;> exact ⟨rfl, rfl⟩

/-- In every `destroy_vm_keep_disk` trace, no state-store write flips the
discriminant before the corresponding await is confirmed. -/
theorem destroyVm_trace_flips (m : Manager) (denv : DestroyEnv) :
    noFlipBeforeAwait (setsDiscriminant false) isAwaitDeleteOk (destroyVmKeepDisk m denv).2 ∧
    noFlipBeforeAwait (setsDiscriminant true) isAwaitCreateOk (destroyVmKeepDisk m denv).2 := by
  unfold destroyVmKeepDisk
  cases m.state with
  | none => exact ⟨rfl, rfl⟩
  | some s =>
    cases hvm : s.vm_exists with
    | false => simp only [hvm]; exact ⟨rfl, rfl⟩
    | true =>
      cases hok : denv.await_delete_ok with
      | false => simp only [hvm, hok]; exact ⟨rfl, rfl⟩
      | true => simp only [hvm, hok]; exact ⟨rfl, rfl⟩

/-- In every `recreate_vm_with_disk` trace, no state-store write flips the
discriminant before the corresponding await is confirmed. -/
theorem recreateVm_trace_flips (m : Manager) (renv : RecreateEnv) :
    noFlipBeforeAwait (setsDiscriminant true) isAwaitCreateOk (recreateVmWithDisk m renv).2 ∧
    noFlipBeforeAwait (setsDiscriminant false) isAwaitDeleteOk (recreateVmWithDisk m renv).2 := by
  unfold recreateVmWithDisk
  cases m.state with
  | none => exact ⟨rfl, rfl⟩
  | some s =>
    cases hvm : s.vm_exists with
    | true => simp only [hvm]; exact ⟨rfl, rfl⟩
    | false =>
      cases hd : renv.disk_found with
      | false => simp only [hvm, hd]; exact ⟨rfl, rfl⟩
      | true =>
        cases hn : renv.nic_found with
        | true =>
          cases hw : renv.await_vm with
          | error e => simp only [hvm, hd, hn, hw]; exact ⟨rfl, rfl⟩
          | ok vmId => simp only [hvm, hd, hn, hw]; exact ⟨rfl, rfl⟩
        | false =>
          cases hnet : renv.network_ok with
          | false => simp only [hvm, hd, hn, hnet]; exact ⟨rfl, rfl⟩
          | true =>
            cases hw : renv.await_vm with
            | error e => simp only [hvm, hd, hn, hnet, hw]; exact ⟨rfl, rfl⟩
            | ok vmId => simp only [hvm, hd, hn, hnet, hw]; exact ⟨rfl, rfl⟩

/-- When no polling attempt ever observes a usable address, the polling loop
exhausts its budget and returns `none` instead of raising. -/
theorem pollPublicIpLoop_none (ipAt : Nat → IpProbe) (h : ∀ n, noUsableIp (ipAt n)) :
    ∀ fuel attempt, pollPublicIpLoop ipAt fuel attempt = none := by
  intro fuel
  induction fuel with
  | zero => intro _; rfl
  | succ fuel ih =>
    intro attempt
    unfold pollPublicIpLoop
    cases hprobe : ipAt attempt with
    | error e => exact ih (attempt + 1)
    | ok o =>
      cases o with
      | none => exact ih (attempt + 1)
      | some ip =>
        show (if ip = "Not Assigned" then pollPublicIpLoop ipAt fuel (attempt + 1) else some ip)
          = none
        rw [if_pos (h attempt ip hprobe)]
        exact ih (attempt + 1)

/-! ## Concrete fixtures for witnesses and counterexamples -/

/-- Manager for project `demo` with no persisted record (Absent). -/
def mgrAbsent : Manager :=
  { subscription_id := "sub-0", config := cfgDemo, state := none }

/-- A persisted DiskOnly record for project `demo`. -/
def stDiskOnly : VMState :=
  { vm_name := "demo-vm"
    resource_group := "demo-rg"
    disk_name := "demo-disk"
    disk_resource_id := diskResourceId "sub-0" "demo-rg" "demo-disk"
    network_interface_id := "nic-0"
    public_ip_id := "pip-0"
    created_at := "2026-01-01T00:00:00"
    vm_resource_id := none
    vm_exists := false }

/-- Manager for project `demo` whose record is DiskOnly. -/
def mgrDiskOnly : Manager :=
  { subscription_id := "sub-0", config := cfgDemo, state := some stDiskOnly }

/-- A persisted Running record for project `demo`. -/
def stRunning : VMState :=
  { stDiskOnly with vm_resource_id := some "vm-id-0", vm_exists := true }

/-- Manager for project `demo` whose record is Running. -/
def mgrRunning : Manager :=
  { subscription_id := "sub-0", config := cfgDemo, state := some stRunning }

/-- A DiskOnly record whose embedded resource group differs from the
config-derived `demo-rg`. -/
def stOtherRg : VMState := { stDiskOnly with resource_group := "other-rg" }

/-- Manager whose persisted record names a different resource group than the
configuration derives. -/
def mgrOtherRg : Manager :=
  { subscription_id := "sub-0", config := cfgDemo, state := some stOtherRg }

/-- A provider environment in which every call succeeds, the disk probe
reports `ResourceNotFound`, and the public address never appears. -/
def envDiskAbsent : CreateEnv :=
  { connectivity_ok := true
    rg_ok := true
    disk_get := .errNotFound
    network_ok := true
    nic_id := "nic-0"
    pip_id := "pip-0"
    ipAt := fun _ => .ok none
    await_vm := .ok "vm-id-1"
    now := "2026-01-02T00:00:00" }

/-- The same environment, except that `disks.get` finds an existing disk. -/
def envDiskExists : CreateEnv := { envDiskAbsent with disk_get := .found "disk-id-0" }

/-- The recreate-guidance message the disk pre-check raises and then
swallows for project `demo` (line 748; quotation marks elided). -/
def diskGuidanceMsg : String :=
  "Disk demo-disk already exists. Use recreate command to reuse existing disk."

/-- Recreate environment in which every provider call succeeds and the
public address never appears. -/
def renvAllOk : RecreateEnv :=
  { disk_found := true
    nic_found := true
    network_ok := true
    ipAt := fun _ => .ok none
    await_vm := .ok "vm-id-2" }

/-- Destroy-all environment whose group deletion succeeds. -/
def dallEnvOk : DestroyAllEnv := { rg_delete_ok := true }

/-- Storage environment: the derived name is free in the resource group but
creation fails because the name is taken globally. -/
def stgEnvTaken : StorageEnv :=
  { get_properties := .errNotFound, create_result := .error "StorageAccountAlreadyTaken" }

/-- Storage environment: an account with the derived name already exists in
the resource group. -/
def stgEnvExisting : StorageEnv :=
  { get_properties := .alreadyExists, create_result := .ok () }

/-! ## Claims -/

/-- Claim C1 (code bug in the source): with no persisted record and a disk
whose derived name already exists, `create_vm` is supposed to fail with the
recreate guidance and never invoke `virtual_machines.begin_create_or_update`
— but the guidance `ValueError` raised at line 748 sits inside the same
`try` whose `except Exception` at line 749 catches it, so the run continues
and the instance-creation call is submitted. -/
theorem create_with_existing_disk_still_submits :
    Event.submitVmCreate "demo-rg" "demo-vm" ∈ (createVm mgrAbsent envDiskExists).2 ∧
    (createVm mgrAbsent envDiskExists).1 ≠ .error diskGuidanceMsg ∧
    exceptIsOk (createVm mgrAbsent envDiskExists).1 = true ∧
    createCheckExistingDisk "demo-disk" (.found "disk-id-0") = .ok () := by
  refine ⟨by decide, by decide, by decide, rfl⟩

/-- Claim C3, counterexample: a DiskOnly record (here with no provider-side
disk, so no other check interferes) does not make `create_vm` reject with
the already-provisioned error — the run completes and rewrites the persisted
state. -/
theorem create_diskonly_not_rejected :
    stDiskOnly.vm_exists = false ∧
    mgrDiskOnly.state = some stDiskOnly ∧
    exceptIsOk (createVm mgrDiskOnly envDiskAbsent).1 = true ∧
    persistedAfter mgrDiskOnly.state (createVm mgrDiskOnly envDiskAbsent).2 ≠
      mgrDiskOnly.state := by
  refine ⟨rfl, rfl, by decide, by decide⟩

/-- Claim C3, amended: `create_vm` is rejected with the already-exists
guidance error precisely by a record whose `vm_exists` discriminant is set
(Running); the rejection happens before any provider call and leaves the
persisted state unchanged.  A DiskOnly record does not by itself cause
rejection. -/
theorem create_rejected_exactly_when_running (m : Manager) (s : VMState)
    (env : CreateEnv) (hs : m.state = some s) (hvm : s.vm_exists = true) :
    (createVm m env).1 = .error (vmAlreadyExistsMsg s.vm_name) ∧
    (createVm m env).2 = [] ∧
    persistedAfter m.state (createVm m env).2 = m.state := by
  have heq : createVm m env = (.error (vmAlreadyExistsMsg s.vm_name), []) := by
    unfold createVm; rw [hs]; simp [hvm]
  rw [heq, hs]
  exact ⟨rfl, rfl, rfl⟩

/-- Witness for the amended C3 at the concrete Running manager. -/
theorem create_rejected_exactly_when_running_witness :
    (createVm mgrRunning envDiskAbsent).1 = .error (vmAlreadyExistsMsg stRunning.vm_name) ∧
    (createVm mgrRunning envDiskAbsent).2 = [] ∧
    persistedAfter mgrRunning.state (createVm mgrRunning envDiskAbsent).2 =
      mgrRunning.state :=
  create_rejected_exactly_when_running mgrRunning stRunning envDiskAbsent rfl rfl

/-- Claim C4, counterexample: `recreate_vm_with_disk` never cross-checks the
persisted resource-group name against the config-derived one — with a record
naming `other-rg` while the configuration derives `demo-rg`, it submits the
instance creation in `other-rg` and completes without any mismatch error. -/
theorem recreate_mismatched_group_not_aborted :
    stOtherRg.resource_group ≠ rgNameOf mgrOtherRg.config ∧
    Event.submitVmCreate "other-rg" "demo-vm" ∈ (recreateVmWithDisk mgrOtherRg renvAllOk).2 ∧
    exceptIsOk (recreateVmWithDisk mgrOtherRg renvAllOk).1 = true := by
  refine ⟨by decide, by decide, by decide⟩

/-- Claim C4, amended: only `create_vm` invokes the resource-group
consistency check, and it passes it the group name it itself derived from
the configuration, so the check always succeeds; `recreate_vm_with_disk`
(like the destroy operations) operates on the persisted record's
resource-group name without cross-checking it, proceeding to mutate even
when that name differs from the config-derived one. -/
theorem rg_check_only_in_create_and_always_passes (cfg : VMConfig) (m : Manager)
    (renv : RecreateEnv) (s : VMState) (hs : m.state = some s)
    (hvm : s.vm_exists = false) (_hmis : s.resource_group ≠ rgNameOf m.config)
    (hdisk : renv.disk_found = true) (hnic : renv.nic_found = true)
    (vmId : String) (hawait : renv.await_vm = .ok vmId) :
    validateResourceGroupConsistency cfg (rgNameOf cfg) = true ∧
    Event.submitVmCreate s.resource_group s.vm_name ∈ (recreateVmWithDisk m renv).2 ∧
    exceptIsOk (recreateVmWithDisk m renv).1 = true := by
  have heq : recreateVmWithDisk m renv =
      (.ok { s with vm_resource_id := some vmId, vm_exists := true },
       [Event.submitVmCreate s.resource_group s.vm_name,
        Event.awaitVmCreateOk s.resource_group s.vm_name,
        Event.persistState { s with vm_resource_id := some vmId, vm_exists := true }]) := by
    unfold recreateVmWithDisk
    rw [hs]
    simp [hvm, hdisk, hnic, hawait]
  rw [heq]
  exact ⟨validateResourceGroupConsistency_self cfg, by simp, rfl⟩

/-- Witness for the amended C4 at the mismatched concrete manager. -/
theorem rg_check_only_in_create_and_always_passes_witness :
    validateResourceGroupConsistency cfgDemo (rgNameOf cfgDemo) = true ∧
    Event.submitVmCreate stOtherRg.resource_group stOtherRg.vm_name ∈
      (recreateVmWithDisk mgrOtherRg renvAllOk).2 ∧
    exceptIsOk (recreateVmWithDisk mgrOtherRg renvAllOk).1 = true :=
  rg_check_only_in_create_and_always_passes cfgDemo mgrOtherRg renvAllOk stOtherRg
    rfl rfl (by decide) rfl rfl "vm-id-2" rfl

/-- Claim C5: across `create_vm`, `destroy_vm_keep_disk` and
`recreate_vm_with_disk`, no state-store write sets `vm_exists := true`
before an instance-creation handle has been awaited successfully, and none
sets `vm_exists := false` before an instance-deletion handle has been
awaited successfully — the discriminant is never flipped at submission
time. -/
theorem instance_exists_flipped_only_after_confirmation (m : Manager)
    (env : CreateEnv) (denv : DestroyEnv) (renv : RecreateEnv) :
    (noFlipBeforeAwait (setsDiscriminant true) isAwaitCreateOk (createVm m env).2 ∧
     noFlipBeforeAwait (setsDiscriminant false) isAwaitDeleteOk (createVm m env).2) ∧
    (noFlipBeforeAwait (setsDiscriminant false) isAwaitDeleteOk (destroyVmKeepDisk m denv).2 ∧
     noFlipBeforeAwait (setsDiscriminant true) isAwaitCreateOk (destroyVmKeepDisk m denv).2) ∧
    (noFlipBeforeAwait (setsDiscriminant true) isAwaitCreateOk (recreateVmWithDisk m renv).2 ∧
     noFlipBeforeAwait (setsDiscriminant false) isAwaitDeleteOk (recreateVmWithDisk m renv).2) :=
  ⟨createVm_trace_flips m env, destroyVm_trace_flips m denv, recreateVm_trace_flips m renv⟩

/-- Claim C6, counterexample: when the derived storage-account name is
rejected at creation time (name taken), `_create_storage_account` fails with
that error after a single suffix draw — it does not regenerate the suffix
and retry. -/
theorem storage_collision_fails_without_retry :
    (createStorageAccount "kpouget-windows-desktop-test" "a1b2c3d4" stgEnvTaken).1 =
      .error "StorageAccountAlreadyTaken" ∧
    countDrawSuffix
      (createStorageAccount "kpouget-windows-desktop-test" "a1b2c3d4" stgEnvTaken).2 = 1 := by
  refine ⟨by decide, by decide⟩

/-- Claim C6, amended: the storage-account name is derived with exactly one
random-suffix draw per call; an account already present under that name in
the resource group is reused, and a creation failure (for example a name
collision in the global namespace) propagates as an error — the suffix is
never regenerated. -/
theorem storage_suffix_drawn_once (p suffix : String) (env : StorageEnv) :
    countDrawSuffix (createStorageAccount p suffix env).2 = 1 ∧
    (env.get_properties = .alreadyExists →
      (createStorageAccount p suffix env).1 = .ok (storageAccountName p suffix)) ∧
    (∀ e, env.get_properties = .errNotFound → env.create_result = .error e →
      (createStorageAccount p suffix env).1 = .error e) := by
  unfold createStorageAccount
  cases hg : env.get_properties with
  | alreadyExists =>
    exact ⟨rfl, fun _ => rfl, fun e h1 _ => StorageGetOutcome.noConfusion h1⟩
  | errOther msg =>
    exact ⟨rfl, fun h => StorageGetOutcome.noConfusion h,
      fun e h1 _ => StorageGetOutcome.noConfusion h1⟩
  | errNotFound =>
    cases hc : env.create_result with
    | ok u =>
      exact ⟨rfl, fun h => StorageGetOutcome.noConfusion h,
        fun e _ h2 => Except.noConfusion h2⟩
    | error e0 =>
      refine ⟨rfl, fun h => StorageGetOutcome.noConfusion h, fun e _ h2 => ?_⟩
      injection h2 with h3
      rw [h3]

/-- Witness for the amended C6 at a concrete call whose account already
exists. -/
theorem storage_suffix_drawn_once_witness :
    countDrawSuffix
      (createStorageAccount "kpouget-windows-desktop-test" "a1b2c3d4" stgEnvExisting).2 = 1 ∧
    (createStorageAccount "kpouget-windows-desktop-test" "a1b2c3d4" stgEnvExisting).1 =
      .ok (storageAccountName "kpouget-windows-desktop-test" "a1b2c3d4") :=
  ⟨(storage_suffix_drawn_once "kpouget-windows-desktop-test" "a1b2c3d4" stgEnvExisting).1,
   (storage_suffix_drawn_once "kpouget-windows-desktop-test" "a1b2c3d4" stgEnvExisting).2.1 rfl⟩

/-- Claim C7: when the public address never becomes available within the
polling budget, `wait_for_public_ip` returns `none` instead of raising, and
the enclosing `create_vm` run still completes and reports the created
instance (with `vm_exists = true`). -/
theorem poll_timeout_returns_none_and_create_succeeds (m : Manager) (env : CreateEnv)
    (hip : ∀ n, noUsableIp (env.ipAt n))
    (hnotrun : ∀ s, m.state = some s → s.vm_exists = false)
    (hv : validateConfiguration m.config env.connectivity_ok = true)
    (hrg : env.rg_ok = true) (hnet : env.network_ok = true)
    (vmId : String) (hawait : env.await_vm = .ok vmId) :
    (∀ st fuel, waitForPublicIp st env.ipAt fuel = none) ∧
    (createVm m env).1 = .ok (createFinalState m env vmId) ∧
    (createFinalState m env vmId).vm_exists = true := by
  refine ⟨?_, ?_, rfl⟩
  · intro st fuel
    cases st with
    | none => rfl
    | some s => exact pollPublicIpLoop_none env.ipAt hip fuel 0
  · rcases createVm_split m env with ⟨s0, hs0, hvm0, _⟩ | heq
    · have hc := hnotrun s0 hs0
      rw [hvm0] at hc
      exact Bool.noConfusion hc
    · rw [heq]
      rcases createVmBody_cases m env with ⟨h1, _⟩ | ⟨h2, _⟩ | ⟨h3, _⟩ |
        ⟨e0, he0, _⟩ | ⟨vmId2, hok, hbody⟩
      · rw [hv] at h1; exact Bool.noConfusion h1
      · rw [hrg] at h2; exact Bool.noConfusion h2
      · rw [hnet] at h3; exact Bool.noConfusion h3
      · rw [hawait] at he0; exact Except.noConfusion he0
      · rw [hawait] at hok
        injection hok with hid
        subst hid
        rw [hbody]

/-- Witness for C7 at the concrete environment whose address probe always
reports no address. -/
theorem poll_timeout_returns_none_and_create_succeeds_witness :
    waitForPublicIp (some stDiskOnly) envDiskAbsent.ipAt createPollAttempts = none ∧
    (createVm mgrAbsent envDiskAbsent).1 =
      .ok (createFinalState mgrAbsent envDiskAbsent "vm-id-1") ∧
    (createFinalState mgrAbsent envDiskAbsent "vm-id-1").vm_exists = true :=
  ⟨(poll_timeout_returns_none_and_create_succeeds mgrAbsent envDiskAbsent
      (fun n ip h => by simp [envDiskAbsent] at h)
      (fun s hs => by simp [mgrAbsent] at hs)
      (by decide) rfl rfl "vm-id-1" rfl).1 (some stDiskOnly) createPollAttempts,
   (poll_timeout_returns_none_and_create_succeeds mgrAbsent envDiskAbsent
      (fun n ip h => by simp [envDiskAbsent] at h)
      (fun s hs => by simp [mgrAbsent] at hs)
      (by decide) rfl rfl "vm-id-1" rfl).2⟩

/-- Claim C8: a successful `destroy_all_resources` leaves no persisted
record, and running it again against the resulting Absent state succeeds as
a no-op with an empty trace — no provider deletion is submitted. -/
theorem destroy_all_second_run_noop (m : Manager) (env env2 : DestroyAllEnv)
    (h : (destroyAllResources m env).1 = true) :
    persistedAfter m.state (destroyAllResources m env).2 = none ∧
    destroyAllResources
      { m with state := persistedAfter m.state (destroyAllResources m env).2 } env2
      = (true, []) := by
  have h1 : persistedAfter m.state (destroyAllResources m env).2 = none := by
    cases hs : m.state with
    | none => simp [destroyAllResources, hs, persistedAfter]
    | some s =>
      cases hok : env.rg_delete_ok with
      | false =>
        have hfalse : (destroyAllResources m env).1 = false := by
          simp [destroyAllResources, hs, hok]
        rw [hfalse] at h
        exact Bool.noConfusion h
      | true => simp [destroyAllResources, hs, hok, persistedAfter]
  refine ⟨h1, ?_⟩
  rw [h1]
  rfl

/-- Witness for C8: a first successful destroy-all from a DiskOnly record,
then the no-op second run. -/
theorem destroy_all_second_run_noop_witness :
    persistedAfter mgrDiskOnly.state (destroyAllResources mgrDiskOnly dallEnvOk).2 = none ∧
    destroyAllResources
      { mgrDiskOnly with
        state := persistedAfter mgrDiskOnly.state (destroyAllResources mgrDiskOnly dallEnvOk).2 }
      dallEnvOk = (true, []) :=
  destroy_all_second_run_noop mgrDiskOnly dallEnvOk dallEnvOk rfl

/-- Claim C10: `create_vm` writes the state store exactly once, as the very
last effect after the instance-creation handle was awaited successfully; a
run that fails at any earlier point — even after the resource group, network
stack or submission already happened on the provider side — performs no
state-store write at all. -/
theorem create_persists_once_at_end (m : Manager) (env : CreateEnv) :
    (∀ e, (createVm m env).1 = .error e → (createVm m env).2.filter isPersist = []) ∧
    (∀ s, (createVm m env).1 = .ok s →
      (createVm m env).2.filter isPersist = [Event.persistState s] ∧
      (createVm m env).2.getLast? = some (Event.persistState s) ∧
      Event.awaitVmCreateOk s.resource_group s.vm_name ∈ (createVm m env).2) := by
  rcases createVm_split m env with ⟨s0, _, _, heq⟩ | heq
  · rw [heq]
    exact ⟨fun e _ => rfl, fun s h => by simp at h⟩
  · rw [heq]
    rcases createVmBody_cases m env with ⟨_, hbody⟩ | ⟨_, hbody⟩ | ⟨_, hbody⟩ |
      ⟨e0, _, hbody⟩ | ⟨vmId, _, hbody⟩ <;> rw [hbody]
    · exact ⟨fun e _ => rfl, fun s h => by simp at h⟩
    · exact ⟨fun e _ => rfl, fun s h => by simp at h⟩
    · exact ⟨fun e _ => rfl, fun s h => by simp at h⟩
    · exact ⟨fun e _ => rfl, fun s h => by simp at h⟩
    · refine ⟨fun e h => by simp at h, fun s h => ?_⟩
      have hsf : createFinalState m env vmId = s := by simpa using h
      subst hsf
      refine ⟨rfl, rfl, ?_⟩
      simp [createSuccessTrace, createFinalState]

/-- Witness for C10 at a concrete successful run. -/
theorem create_persists_once_at_end_witness :
    (createVm mgrAbsent envDiskAbsent).2.filter isPersist =
      [Event.persistState (createFinalState mgrAbsent envDiskAbsent "vm-id-1")] ∧
    (createVm mgrAbsent envDiskAbsent).2.getLast? =
      some (Event.persistState (createFinalState mgrAbsent envDiskAbsent "vm-id-1")) :=
  ⟨((create_persists_once_at_end mgrAbsent envDiskAbsent).2
      (createFinalState mgrAbsent envDiskAbsent "vm-id-1") (by decide)).1,
   ((create_persists_once_at_end mgrAbsent envDiskAbsent).2
      (createFinalState mgrAbsent envDiskAbsent "vm-id-1") (by decide)).2.1⟩

end AzureVmManager
